import Mathlib

/-!
Shallow embedding of the query-routing core of a sharded Postgres proxy:
the `WHERE`-clause sharding-key extractor (`frontend/router/parser/where_clause.rs`)
and the `Route` descriptor (`frontend/router/parser/route.rs`), together with
theorems checking the natural-language specification against the code.

The AST types mirror the `pg_query` protobuf node variants that the extractor
inspects; every node kind the extractor treats as opaque is collapsed into the
single constructor `Node.other` (the Rust code handles all of them, and a
missing `node` field, with the same catch-all arm).
-/

/-- Literal payload of an `AConst` node (`pg_query::protobuf::a_const::Val`). -/
inductive Val where
  | Ival (ival : Int)
  | Fval (fval : String)
  | Boolval (boolval : Bool)
  | Sval (sval : String)
  | Bsval (bsval : String)
deriving DecidableEq, Repr

/-- Test type of a `NullTest` node (`IS NULL` / `IS NOT NULL`). -/
inductive NullTestType where
  | IsNull
  | IsNotNull
  | Undefined
deriving DecidableEq, Repr

/-- Combinator of a `BoolExpr` node. -/
inductive BoolExprType where
  | AndExpr
  | OrExpr
  | NotExpr
  | Undefined
deriving DecidableEq, Repr

/-- Kind of an `AExpr` node (`pg_query::protobuf::AExprKind`). -/
inductive AExprKind where
  | AexprOp
  | AexprOpAny
  | AexprOpAll
  | AexprDistinct
  | AexprNotDistinct
  | AexprNullif
  | AexprIn
  | AexprLike
  | AexprIlike
  | AexprSimilar
  | AexprBetween
  | AexprNotBetween
  | AexprBetweenSym
  | AexprNotBetweenSym
deriving DecidableEq, Repr

/-- The subset of `pg_query` AST nodes the extractor dispatches on.
`Node.other` stands for any other node kind as well as an empty `node` field;
the Rust `parse` treats all of those identically (the `_ => ()` arm). -/
inductive Node where
  | nullTest (nulltesttype : NullTestType) (arg : Option Node)
  | boolExpr (boolop : BoolExprType) (args : List Node)
  | aExpr (kind : AExprKind) (name : List Node) (lexpr : Option Node) (rexpr : Option Node)
  | aConst (val : Option Val)
  | columnRef (fields : List Node)
  | paramRef (number : Int)
  | list (items : List Node)
  | typeCast (arg : Option Node)
  | string (sval : String)
  | other
deriving Repr

/-- Modelled from the spec: the `Key` binding type of the resolver
(`super::Key`, not under `src/`). Variants: a concrete constant (string form,
with an array flag), a 0-indexed parameter position (with an array flag), and
the `IS NULL` sentinel. -/
inductive Key where
  | Constant (value : String) (array : Bool)
  | Parameter (pos : Nat) (array : Bool)
  | Null
deriving DecidableEq, Repr

/-- A qualified column reference (`where_clause.rs`, `struct Column`). -/
structure Column where
  table : Option String
  name : String
deriving DecidableEq, Repr

/-- Intermediate output of the extractor (`where_clause.rs`, `enum Output`).
`Parameter.pos` is the raw `i32` placeholder number from the AST. -/
inductive Output where
  | Parameter (pos : Int) (array : Bool)
  | Value (value : String) (array : Bool)
  | Int (value : Int) (array : Bool)
  | Column (column : Column)
  | NullCheck (column : Column)
  | Filter (left : List Output) (right : List Output)
deriving Repr

/-- Result of parsing a `WHERE` clause (`struct WhereClause`). -/
structure WhereClause where
  output : List Output

/-- Number of values of the 64-bit `usize` type. -/
def USIZE : Nat := 2 ^ 64

/-- The Rust cast `i as usize` for `i : i32` on a 64-bit target
(sign extension, i.e. reduction modulo `2^64`). -/
def usizeOfI32 (i : Int) : Nat := (i % (2 ^ 64 : Int)).toNat

namespace WhereClause

/-- `WhereClause::string`: read the payload of a `String` node, if present. -/
def string : Option Node → Option String
  | some (.string s) => some s
  | _ => none

/-- `WhereClause::column_match`: if both the target and the column carry a
table qualifier they must be equal; otherwise match on the name alone. -/
def column_match (column : Column) (table : Option String) (name : String) : Bool :=
  match table, column.table with
  | some table, some other_table =>
    if table != other_table then false else column.name == name
  | _, _ => column.name == name

/-- `WhereClause::get_key` under the release-profile semantics of
`*pos as usize - 1`: unsigned subtraction wraps modulo `2^64`. -/
def get_key (output : Output) : Option Key :=
  match output with
  | .Int value array => some (Key.Constant (toString value) array)
  | .Parameter pos array =>
    some (Key.Parameter ((usizeOfI32 pos + (USIZE - 1)) % USIZE) array)
  | .Value value array => some (Key.Constant value array)
  | _ => none

/-- `WhereClause::get_key` under the debug-profile semantics of
`*pos as usize - 1`: the subtraction panics on underflow, i.e. exactly when
`pos as usize` is `0`; the panic is modelled as `Except.error ()`. -/
def get_key_debug (output : Output) : Except Unit (Option Key) :=
  match output with
  | .Int value array => .ok (some (Key.Constant (toString value) array))
  | .Parameter pos array =>
    if usizeOfI32 pos = 0 then .error ()
    else .ok (some (Key.Parameter (usizeOfI32 pos - 1) array))
  | .Value value array => .ok (some (Key.Constant value array))
  | _ => .ok none

/-- Helper for the slice pattern `&[Output::Column(ref column)]` used by the
match in `WhereClause::search_for_keys`: it matches exactly when the side is a
one-element slice holding a `Column`. -/
def singleton_column : List Output → Option Column
  | [.Column c] => some c
  | _ => none

/-- `WhereClause::search_for_keys`: walk one extractor output looking for keys
bound to the target column. The three ordered slice-pattern arms of the Rust
match are rendered through `singleton_column`: the first arm takes a singleton
column on the left (any right side), the second a singleton column on the
right when the left side is not one, and the last arm recurses into both
sides. -/
def search_for_keys (output : Output) (table_name : Option String) (column_name : String) :
    List Key :=
  match output with
  | .Filter left right =>
    (match singleton_column left, singleton_column right with
     | some column, _ =>
       if column_match column table_name column_name then right.filterMap get_key else []
     | none, some column =>
       if column_match column table_name column_name then left.filterMap get_key else []
     | none, none =>
       (left.attach.map (fun ⟨o, ho⟩ => search_for_keys o table_name column_name)).flatten ++
       (right.attach.map (fun ⟨o, ho⟩ => search_for_keys o table_name column_name)).flatten)
  | .NullCheck c =>
    if c.name == column_name && c.table == table_name then [Key.Null] else []
  | _ => []
termination_by sizeOf output
decreasing_by
  all_goals simp_wf
  all_goals try (have hlt := List.sizeOf_lt_of_mem ho)
  all_goals omega

/-- `WhereClause::parse`: the recursive extractor walk over the `WHERE` AST. -/
def parse (table_name : Option String) (node : Node) (array : Bool) : List Output :=
  match node with
  | .nullTest ntt arg =>
    if ntt = NullTestType.IsNull then
      let left := match arg with
        | some n => (parse table_name n array).getLast?
        | none => none
      match left with
      | some (.Column c) => [.NullCheck c]
      | _ => []
    else []
  | .boolExpr boolop args =>
    if boolop ≠ BoolExprType.AndExpr then []
    else (args.attach.map (fun ⟨a, ha⟩ => parse table_name a array)).flatten
  | .aExpr kind name lexpr rexpr =>
    let bad :=
      (kind == AExprKind.AexprOp || kind == AExprKind.AexprIn ||
        kind == AExprKind.AexprOpAny) &&
      (match string name.head? with
       | some op => op != "="
       | none => false)
    if bad then []
    else
      let array := kind == AExprKind.AexprOpAny
      match lexpr, rexpr with
      | some l, some r =>
        [.Filter (parse table_name l array) (parse table_name r array)]
      | _, _ => []
  | .aConst val =>
    match val with
    | some (.Ival i) => [.Int i array]
    | some (.Sval s) => [.Value s array]
    | some (.Fval f) => [.Value f array]
    | _ => []
  | .columnRef fields =>
    let name := string fields.getLast?
    let table := string fields.reverse[1]?
    let table := match table with
      | some t => some t
      | none => table_name
    match name with
    | some name => [.Column ⟨table, name⟩]
    | none => []
  | .paramRef number => [.Parameter number array]
  | .list items => (items.attach.map (fun ⟨a, ha⟩ => parse table_name a array)).flatten
  | .typeCast arg =>
    match arg with
    | some a => parse table_name a array
    | none => []
  | _ => []
termination_by sizeOf node
decreasing_by
  all_goals simp_wf
  all_goals try (have hlt := List.sizeOf_lt_of_mem ha)
  all_goals omega

/-- `WhereClause::new`: parse the `WHERE` clause of a statement, if present. -/
def new (table_name : Option String) (where_clause : Option Node) : Option WhereClause :=
  match where_clause with
  | none => none
  | some wc => some ⟨parse table_name wc false⟩

/-- `WhereClause::keys`: collect keys for the target column from every
top-level extractor output. -/
def keys (w : WhereClause) (table_name : Option String) (column_name : String) : List Key :=
  (w.output.map (fun o => search_for_keys o table_name column_name)).flatten

end WhereClause

/-- Modelled from the spec: a column-or-position selector used by the
order-by and distinct descriptors (`super::OrderBy` / `super::DistinctBy`
internals are not under `src/`). -/
inductive ColumnOrPosition where
  | name (n : String)
  | position (p : Nat)
deriving DecidableEq, Repr

/-- Modelled from the spec: sort direction of an order-by key. -/
inductive SortDirection where
  | ascending
  | descending
deriving DecidableEq, Repr

/-- Modelled from the spec: nulls placement of an order-by key. -/
inductive NullsPlacement where
  | first
  | last
deriving DecidableEq, Repr

/-- Modelled from the spec: one order-by key,
`(column-or-position, direction, nulls-first-or-last)` (`super::OrderBy` is
not under `src/`). -/
structure OrderBy where
  column : ColumnOrPosition
  direction : SortDirection
  nulls : Option NullsPlacement := none
deriving DecidableEq, Repr

/-- Modelled from the spec: an aggregate function of the per-result-column
aggregation plan. -/
inductive AggregateFunction where
  | count
  | sum
  | min
  | max
deriving DecidableEq, Repr

/-- Modelled from the spec: one aggregated result column. -/
structure AggregateTarget where
  column : Nat
  function : AggregateFunction
deriving DecidableEq, Repr

/-- Modelled from the spec: the aggregation plan of a route
(`super::Aggregate` is not under `src/`): per-result-column aggregates plus
group-by column indices, possibly empty. The default value is the empty
plan. -/
structure Aggregate where
  targets : List AggregateTarget := []
  group_by : List Nat := []
deriving DecidableEq, Repr

/-- Modelled from the spec: `Aggregate::is_empty`, true for the empty plan. -/
def Aggregate.is_empty (a : Aggregate) : Bool :=
  a.targets.isEmpty && a.group_by.isEmpty

/-- Modelled from the spec: the limit descriptor `(offset, count)`, both
optional (`super::Limit` is not under `src/`); the default has neither. -/
structure Limit where
  limit : Option Nat := none
  offset : Option Nat := none
deriving DecidableEq, Repr

/-- Modelled from the spec: the distinct descriptor, a list of distinct-by
columns or positions (`super::DistinctBy` is not under `src/`). -/
structure DistinctBy where
  columns : List ColumnOrPosition
deriving DecidableEq, Repr

/-- Modelled from the spec: locking behavior of a called function
(`super::LockingBehavior` is not under `src/`). -/
inductive LockingBehavior where
  | Lock
  | NoLock
deriving DecidableEq, Repr

/-- Modelled from the spec: write/lock behavior of a called function
(`super::FunctionBehavior` is not under `src/`). -/
structure FunctionBehavior where
  writes : Bool
  locking_behavior : LockingBehavior
deriving DecidableEq, Repr

/-- `route.rs`, `enum Shard`: the shard target. `All` is the `#[default]`
variant. -/
inductive Shard where
  | Direct (shard : Nat)
  | Multi (shards : List Nat)
  | All
deriving DecidableEq, Repr

/-- `Shard::all`. -/
def Shard.all : Shard → Bool
  | .All => true
  | _ => false

/-- `Shard::direct`. -/
def Shard.direct (shard : Nat) : Shard := .Direct shard

/-- `route.rs`, `struct Route`. The field defaults spell out
`Route::default()` (`#[derive(Default)]`): `Shard::All`, `false` booleans,
empty collections, absent options. -/
structure Route where
  shard : Shard := .All
  read : Bool := false
  order_by : List OrderBy := []
  aggregate : Aggregate := {}
  limit : Limit := {}
  lock_session : Bool := false
  distinct : Option DistinctBy := none
deriving DecidableEq, Repr

namespace Route

/-- `Route::select`: a `SELECT` query; `read = true`, remaining fields from
`Default::default()`. -/
def select (shard : Shard) (order_by : List OrderBy) (aggregate : Aggregate)
    (limit : Limit) (distinct : Option DistinctBy) : Route :=
  { shard := shard, order_by := order_by, read := true, aggregate := aggregate,
    limit := limit, distinct := distinct }

/-- `Route::read`: a query that should go to a replica. (The Rust associated
function is named `read`; the Lean structure projection for the `read` field
already carries that name, hence the prime.) -/
def read' (shard : Shard) : Route :=
  { shard := shard, read := true }

/-- `Route::write`: a write query; every field but the shard from
`Default::default()`. -/
def write (shard : Shard) : Route :=
  { shard := shard }

/-- `Route::is_read`. -/
def is_read (r : Route) : Bool := r.read

/-- `Route::is_write`. -/
def is_write (r : Route) : Bool := !r.is_read

/-- `Route::is_all_shards`. -/
def is_all_shards (r : Route) : Bool :=
  match r.shard with
  | .All => true
  | _ => false

/-- `Route::is_multi_shard`. -/
def is_multi_shard (r : Route) : Bool :=
  match r.shard with
  | .Multi _ => true
  | _ => false

/-- `Route::is_cross_shard`. -/
def is_cross_shard (r : Route) : Bool :=
  r.is_all_shards || r.is_multi_shard

/-- `Route::set_shard_mut` / `Route::set_shard`: override the shard to
`Direct`. -/
def set_shard (r : Route) (shard : Nat) : Route :=
  { r with shard := .Direct shard }

/-- `Route::should_buffer`: results must be buffered when any of order-by,
aggregate, or distinct is present. -/
def should_buffer (r : Route) : Bool :=
  !r.order_by.isEmpty || !r.aggregate.is_empty || r.distinct.isSome

/-- `Route::set_read` / `Route::set_read_mut`. -/
def set_read (r : Route) (read : Bool) : Route :=
  { r with read := read }

/-- `Route::set_write` / `Route::set_write_mut`: a function that writes forces
the primary; a locking function pins the session. -/
def set_write (r : Route) (write : FunctionBehavior) : Route :=
  { r with read := !write.writes,
           lock_session := write.locking_behavior == LockingBehavior.Lock }

/-- `Route::set_lock_session`. -/
def set_lock_session (r : Route) : Route :=
  { r with lock_session := true }

end Route

/-- A node is value-like when it is a literal constant or a parameter
placeholder. -/
def is_value_node : Node → Bool
  | .aConst _ => true
  | .paramRef _ => true
  | _ => false

/-- `singleton_column` on a literal one-element column slice. -/
lemma singleton_column_single (c : Column) :
    WhereClause.singleton_column [Output.Column c] = some c := rfl

/-- A list matched by `singleton_column` is exactly a one-element column
slice. -/
lemma singleton_column_some {vs : List Output} {c : Column}
    (h : WhereClause.singleton_column vs = some c) : vs = [Output.Column c] := by
  unfold WhereClause.singleton_column at h
  split at h
  · cases h; rfl
  · cases h

/-- Swapping a singleton-column side with the other side of a `Filter` does
not change the keys found: the resolver's match inspects both orderings. -/
lemma search_filter_comm (c : Column) (vs : List Output) (tn : Option String)
    (cn : String) :
    WhereClause.search_for_keys (.Filter [.Column c] vs) tn cn =
    WhereClause.search_for_keys (.Filter vs [.Column c]) tn cn := by
  rcases h : WhereClause.singleton_column vs with _ | c'
  · simp [WhereClause.search_for_keys, singleton_column_single, h]
  · rw [singleton_column_some h]
    simp [WhereClause.search_for_keys, singleton_column_single,
      WhereClause.get_key]

/-- Claim C8: a `Route` built by `write` is not a read; one built by `select`
or `read` is a read; and `is_read` is always the negation of `is_write`. -/
theorem C8_route_read_write :
    (∀ shard : Shard, (Route.write shard).is_read = false) ∧
    (∀ (shard : Shard) (order_by : List OrderBy) (aggregate : Aggregate)
      (limit : Limit) (distinct : Option DistinctBy),
      (Route.select shard order_by aggregate limit distinct).is_read = true) ∧
    (∀ shard : Shard, (Route.read' shard).is_read = true) ∧
    (∀ r : Route, r.is_read = !r.is_write) := by
  refine ⟨fun _ => rfl, fun _ _ _ _ _ => rfl, fun _ => rfl, fun r => ?_⟩
  simp [Route.is_write]

/-- Claim C9: `should_buffer` holds exactly when one of `order_by`,
`aggregate`, `distinct` is non-empty, and routes built by `write` or `read`
never buffer. -/
theorem C9_should_buffer :
    (∀ r : Route, r.should_buffer = true ↔
      (r.order_by ≠ [] ∨ r.aggregate.is_empty = false ∨ r.distinct ≠ none)) ∧
    (∀ shard : Shard, (Route.write shard).should_buffer = false) ∧
    (∀ shard : Shard, (Route.read' shard).should_buffer = false) := by
  refine ⟨fun r => ?_, fun _ => rfl, fun _ => rfl⟩
  simp [Route.should_buffer, List.isEmpty_iff, Option.isSome_iff_ne_none,
    Bool.not_eq_true', or_assoc]

/-- Claim C2 (counterexample): an unqualified column passes `column_match`
against a qualified target, yet the resolver's `NullCheck` arm emits no
`Key::Null` for it — the arm compares qualifiers strictly. -/
theorem C2_counterexample :
    WhereClause.column_match ⟨none, "tenant_id"⟩ (some "users") "tenant_id" = true ∧
    WhereClause.search_for_keys (.NullCheck ⟨none, "tenant_id"⟩)
      (some "users") "tenant_id" = [] := by
  exact ⟨by decide, by simp [WhereClause.search_for_keys]⟩

/-- Claim C2 (amended): for a top-level `NullCheck(c)` the resolver emits
`Key::Null` exactly when the column name equals the target name and the table
qualifier equals the target qualifier strictly — both absent, or both present
and equal (not the `column_match` rule, which lets an absent qualifier match
anything). -/
theorem C2_nullcheck_strict (c : Column) (tn : Option String) (cn : String) :
    WhereClause.search_for_keys (.NullCheck c) tn cn =
      if c.name = cn ∧ c.table = tn then [Key.Null] else [] := by
  simp [WhereClause.search_for_keys]

/-- Claim C3: an `AExpr` of kind `Op` or `OpAny` whose operator name is not
`=` produces no extractor output, and hence no key in the resolver's output
for any target table and column. -/
theorem C3_nonequality (t : Option String) (a : Bool) (kind : AExprKind)
    (name : List Node) (l r : Option Node) (op : String)
    (hkind : kind = AExprKind.AexprOp ∨ kind = AExprKind.AexprOpAny)
    (hop : WhereClause.string name.head? = some op) (hne : op ≠ "=") :
    WhereClause.parse t (.aExpr kind name l r) a = [] ∧
    (∀ (tn : Option String) (cn : String),
      (WhereClause.new t (some (.aExpr kind name l r))).map
        (fun w => w.keys tn cn) = some []) := by
  have hb : (op != "=") = true := bne_iff_ne.mpr hne
  have hparse : ∀ b : Bool, WhereClause.parse t (.aExpr kind name l r) b = [] := by
    intro b
    rcases hkind with h | h <;> subst h <;> simp [WhereClause.parse, hop, hb]
  exact ⟨hparse a, fun tn cn => by
    simp [WhereClause.new, WhereClause.keys, hparse false]⟩

/-- Claim C3 witness: `id < 5` yields no extractor output. -/
theorem C3_witness :
    WhereClause.parse (some "t") (.aExpr .AexprOp [.string "<"]
      (some (.columnRef [.string "id"])) (some (.aConst (some (.Ival 5))))) false = [] :=
  (C3_nonequality (some "t") false .AexprOp [.string "<"]
    (some (.columnRef [.string "id"])) (some (.aConst (some (.Ival 5))))
    "<" (Or.inl rfl) rfl (by decide)).1

/-- Claim C4: a `BoolExpr` whose combinator is not `AND` parses to the empty
output list, and a `WHERE` clause whose top level is `OR` yields an empty key
list for every target table and column. -/
theorem C4_bool_or :
    (∀ (t : Option String) (a : Bool) (op : BoolExprType) (args : List Node),
      op ≠ BoolExprType.AndExpr →
      WhereClause.parse t (.boolExpr op args) a = []) ∧
    (∀ (t tn : Option String) (cn : String) (args : List Node),
      (WhereClause.new t (some (.boolExpr BoolExprType.OrExpr args))).map
        (fun w => w.keys tn cn) = some []) := by
  have hparse : ∀ (t : Option String) (a : Bool) (op : BoolExprType)
      (args : List Node), op ≠ BoolExprType.AndExpr →
      WhereClause.parse t (.boolExpr op args) a = [] := by
    intro t a op args h
    simp [WhereClause.parse, h]
  refine ⟨hparse, fun t tn cn args => ?_⟩
  simp [WhereClause.new, WhereClause.keys, hparse t false BoolExprType.OrExpr args (by decide)]

/-- Claim C4 witness: an `OR` of a single parameter predicate parses to
nothing. -/
theorem C4_witness :
    WhereClause.parse (some "t") (.boolExpr BoolExprType.OrExpr [.paramRef 1]) false = [] :=
  C4_bool_or.1 (some "t") false BoolExprType.OrExpr [.paramRef 1] (by decide)

/-- The predicate `name LIKE 'x%'`: an `AExpr` of kind `AexprLike` with
operator name `~~`, a column on the left and a string literal on the right. -/
def like_node : Node :=
  .aExpr .AexprLike [.string "~~"] (some (.columnRef [.string "name"]))
    (some (.aConst (some (.Sval "x%"))))

/-- Claim C1 (counterexample): an `AExpr` of kind `Like` is not ignored — the
extractor emits a `Filter` for it, and the resolver then derives a binding
from it for the matching column. -/
theorem C1_counterexample :
    WhereClause.parse none like_node false =
      [Output.Filter [Output.Column ⟨none, "name"⟩] [Output.Value "x%" false]] ∧
    (WhereClause.new none (some like_node)).map (fun w => w.keys none "name") =
      some [Key.Constant "x%" false] := by
  constructor <;>
    simp [like_node, WhereClause.new, WhereClause.keys, WhereClause.parse,
      WhereClause.string, WhereClause.search_for_keys, singleton_column_single,
      WhereClause.column_match, WhereClause.get_key]

/-- Claim C1 (amended): for an `AExpr` whose kind is not `Op`, `In`, or
`OpAny`, the extractor skips the operator-name check but does not ignore the
node: when both operands are present it emits a single
`Filter(parse(lexpr), parse(rexpr))` (with the array flag off), and only when
an operand is missing does it emit nothing. -/
theorem C1_amended_filter (t : Option String) (a : Bool) (kind : AExprKind)
    (name : List Node) (l r : Option Node)
    (h1 : kind ≠ AExprKind.AexprOp) (h2 : kind ≠ AExprKind.AexprIn)
    (h3 : kind ≠ AExprKind.AexprOpAny) :
    WhereClause.parse t (.aExpr kind name l r) a =
      match l, r with
      | some ln, some rn =>
        [Output.Filter (WhereClause.parse t ln false) (WhereClause.parse t rn false)]
      | _, _ => [] := by
  have hb1 : (kind == AExprKind.AexprOp) = false := beq_eq_false_iff_ne.mpr h1
  have hb2 : (kind == AExprKind.AexprIn) = false := beq_eq_false_iff_ne.mpr h2
  have hb3 : (kind == AExprKind.AexprOpAny) = false := beq_eq_false_iff_ne.mpr h3
  cases l <;> cases r <;> simp [WhereClause.parse, hb1, hb2, hb3]

/-- Claim C1 witness: the amended statement evaluated on `name LIKE 'x%'`. -/
theorem C1_witness :
    WhereClause.parse none like_node false =
      [Output.Filter [Output.Column ⟨none, "name"⟩] [Output.Value "x%" false]] := by
  have h := C1_amended_filter none false .AexprLike [.string "~~"]
    (some (.columnRef [.string "name"])) (some (.aConst (some (.Sval "x%"))))
    (by decide) (by decide) (by decide)
  unfold like_node
  rw [h]
  simp [WhereClause.parse, WhereClause.string]

/-- Claim C5: a `WHERE` clause that is a single `NullTest` whose argument
resolves to the target column (equal name, equal table qualifier) yields
exactly `[Key::Null]` under `IS NULL` and the empty key list under
`IS NOT NULL`. -/
theorem C5_nulltest (d tn : Option String) (cn : String) (arg : Node) (c : Column)
    (harg : (WhereClause.parse d arg false).getLast? = some (Output.Column c))
    (hname : c.name = cn) (htable : c.table = tn) :
    ((WhereClause.new d (some (.nullTest .IsNull (some arg)))).map
      (fun w => w.keys tn cn) = some [Key.Null]) ∧
    ((WhereClause.new d (some (.nullTest .IsNotNull (some arg)))).map
      (fun w => w.keys tn cn) = some []) := by
  constructor
  · simp [WhereClause.new, WhereClause.keys, WhereClause.parse, harg,
      WhereClause.search_for_keys, hname, htable]
  · simp [WhereClause.new, WhereClause.keys, WhereClause.parse]

/-- Claim C5 witness: `tenant_id IS NULL` and `tenant_id IS NOT NULL` on the
`users` table. -/
theorem C5_witness :
    ((WhereClause.new (some "users")
        (some (.nullTest .IsNull (some (.columnRef [.string "tenant_id"]))))).map
      (fun w => w.keys (some "users") "tenant_id") = some [Key.Null]) ∧
    ((WhereClause.new (some "users")
        (some (.nullTest .IsNotNull (some (.columnRef [.string "tenant_id"]))))).map
      (fun w => w.keys (some "users") "tenant_id") = some []) :=
  C5_nulltest (some "users") (some "users") "tenant_id"
    (.columnRef [.string "tenant_id"]) ⟨some "users", "tenant_id"⟩
    (by simp [WhereClause.parse, WhereClause.string]) rfl rfl

/-- Claim C6: equality predicates are commutative for the resolver — with a
column reference on one side and a value-like operand (constant or parameter)
on the other, `c = v` and `v = c` yield identical key lists for every target
table and column. -/
theorem C6_commutativity (t tn : Option String) (cn : String)
    (colnode valnode : Node) (c : Column)
    (hcol : WhereClause.parse t colnode false = [Output.Column c])
    (hval : is_value_node valnode = true) :
    (WhereClause.new t (some (.aExpr .AexprOp [.string "="]
        (some colnode) (some valnode)))).map (fun w => w.keys tn cn) =
    (WhereClause.new t (some (.aExpr .AexprOp [.string "="]
        (some valnode) (some colnode)))).map (fun w => w.keys tn cn) := by
  have hexpand : ∀ ln rn : Node,
      WhereClause.parse t (.aExpr .AexprOp [.string "="] (some ln) (some rn)) false =
      [Output.Filter (WhereClause.parse t ln false) (WhereClause.parse t rn false)] := by
    intro ln rn
    simp [WhereClause.parse, WhereClause.string,
      show (AExprKind.AexprOp == AExprKind.AexprOpAny) = false from rfl]
  simp only [WhereClause.new, WhereClause.keys, hexpand, hcol, Option.map_some',
    List.map_cons, List.map_nil, List.flatten_cons, List.flatten_nil,
    List.append_nil, Option.some.injEq]
  exact search_filter_comm c (WhereClause.parse t valnode false) tn cn

/-- Claim C6 witness: `id = 5` and `5 = id` on table `t`. -/
theorem C6_witness :
    (WhereClause.new (some "t") (some (.aExpr .AexprOp [.string "="]
        (some (.columnRef [.string "id"]))
        (some (.aConst (some (.Ival 5))))))).map (fun w => w.keys (some "t") "id") =
    (WhereClause.new (some "t") (some (.aExpr .AexprOp [.string "="]
        (some (.aConst (some (.Ival 5))))
        (some (.columnRef [.string "id"]))))).map (fun w => w.keys (some "t") "id") :=
  C6_commutativity (some "t") (some "t") "id" (.columnRef [.string "id"])
    (.aConst (some (.Ival 5))) ⟨some "t", "id"⟩
    (by simp [WhereClause.parse, WhereClause.string]) rfl

/-- Wrapped `usize` subtraction of one agrees with truncated subtraction when
the operand is at least one and in range. -/
lemma usize_wrap_sub_one {n : Nat} (h1 : 1 ≤ n) (h2 : n < USIZE) :
    (n + (USIZE - 1)) % USIZE = n - 1 := by
  have hu : USIZE = 18446744073709551616 := by norm_num [USIZE]
  rw [hu] at h2 ⊢
  omega

/-- The predicate `tenant_id IN ($1, $2, $3, $4)`: an `AExpr` of kind
`AexprIn` with operator name `=`, the column on the left and the placeholder
list on the right, as `pg_query` presents it. -/
def in_clause_node : Node :=
  .aExpr .AexprIn [.string "="] (some (.columnRef [.string "tenant_id"]))
    (some (.list [.paramRef 1, .paramRef 2, .paramRef 3, .paramRef 4]))

/-- Claim C7: a `ParamRef` with placeholder number `n` is extracted verbatim,
the resolver converts it to a 0-indexed `Key::Parameter` with position
`n - 1`, and `tenant_id IN ($1, $2, $3, $4)` yields exactly the four keys at
positions 0, 1, 2, 3 in order. -/
theorem C7_param_indexing :
    (∀ (t : Option String) (n : Int) (a : Bool),
      WhereClause.parse t (.paramRef n) a = [Output.Parameter n a]) ∧
    (∀ (n : Int) (a : Bool), 1 ≤ n → n < 2147483648 →
      WhereClause.get_key (Output.Parameter n a) =
        some (Key.Parameter (n.toNat - 1) a)) ∧
    ((WhereClause.new (some "users") (some in_clause_node)).map
      (fun w => w.keys (some "users") "tenant_id") =
      some [Key.Parameter 0 false, Key.Parameter 1 false,
            Key.Parameter 2 false, Key.Parameter 3 false]) := by
  refine ⟨fun t n a => by simp [WhereClause.parse], fun n a h1 h2 => ?_, ?_⟩
  · have hmod : n % (18446744073709551616 : Int) = n :=
      Int.emod_eq_of_lt (by omega) (by omega)
    have key : (n.toNat + (USIZE - 1)) % USIZE = n.toNat - 1 :=
      usize_wrap_sub_one (by omega)
        (by rw [show USIZE = 18446744073709551616 from by norm_num [USIZE]]; omega)
    simp [WhereClause.get_key, usizeOfI32, hmod, key]
  · simp [WhereClause.new, WhereClause.keys, WhereClause.parse, WhereClause.string,
      in_clause_node, WhereClause.search_for_keys, singleton_column_single,
      WhereClause.column_match, WhereClause.get_key, usizeOfI32, USIZE]

/-- Claim C7 witness: placeholder `$3` becomes `Key::Parameter` at position 2. -/
theorem C7_witness :
    WhereClause.get_key (Output.Parameter 3 false) = some (Key.Parameter 2 false) :=
  C7_param_indexing.2.1 3 false (by decide) (by decide)

/-- Claim C10: the resolver's position conversion `pos as usize - 1` is only
well-defined for placeholder numbers of at least one; at `pos = 0` the
subtraction underflows — a panic in debug builds (`Except.error`), a wrap to
`2^64 - 1` in release builds — instead of dropping the key (degrading to
`All`). -/
theorem C10_param_underflow :
    (∀ a : Bool, WhereClause.get_key_debug (Output.Parameter 0 a) =
      Except.error ()) ∧
    (∀ (n : Int) (a : Bool), 1 ≤ n → n < 2147483648 →
      WhereClause.get_key_debug (Output.Parameter n a) =
        Except.ok (some (Key.Parameter (n.toNat - 1) a))) ∧
    (∀ a : Bool, WhereClause.get_key (Output.Parameter 0 a) =
      some (Key.Parameter (USIZE - 1) a)) := by
  refine ⟨fun a => by simp [WhereClause.get_key_debug, usizeOfI32],
    fun n a h1 h2 => ?_, fun a => ?_⟩
  · have hmod : n % (18446744073709551616 : Int) = n :=
      Int.emod_eq_of_lt (by omega) (by omega)
    have hne : ¬ (n.toNat = 0) := by omega
    simp [WhereClause.get_key_debug, usizeOfI32, hmod, hne]
  · simp [WhereClause.get_key, usizeOfI32]

/-- Claim C10 witness: placeholder number 1 is the smallest well-defined
input; the debug-semantics conversion succeeds there with position 0. -/
theorem C10_witness :
    WhereClause.get_key_debug (Output.Parameter 1 true) =
      Except.ok (some (Key.Parameter 0 true)) :=
  C10_param_underflow.2.1 1 true (by decide) (by decide)

/-- The repository's `test_where_clause` scenario:
`id = 5 AND (something_else <> 6 OR column_a = 'test')` on table `sharded`
resolves for `(sharded, id)` to the single constant key `5`. -/
theorem where_clause_test_eq_and_or :
    (WhereClause.new (some "sharded") (some (.boolExpr .AndExpr [
      .aExpr .AexprOp [.string "="] (some (.columnRef [.string "id"]))
        (some (.aConst (some (.Ival 5)))),
      .boolExpr .OrExpr [
        .aExpr .AexprOp [.string "<>"] (some (.columnRef [.string "something_else"]))
          (some (.aConst (some (.Ival 6)))),
        .aExpr .AexprOp [.string "="] (some (.columnRef [.string "column_a"]))
          (some (.aConst (some (.Sval "test"))))]]))).map
      (fun w => w.keys (some "sharded") "id") = some [Key.Constant "5" false] := by
  simp [WhereClause.new, WhereClause.keys, WhereClause.parse, WhereClause.string,
    WhereClause.search_for_keys, singleton_column_single,
    WhereClause.column_match, WhereClause.get_key]
  rfl

/-- The repository's `test_any` scenario: `tenant_id = ANY($1)` resolves to a
single parameter key at position 0 with the array flag set. -/
theorem where_clause_test_any_param :
    (WhereClause.new (some "users") (some (.aExpr .AexprOpAny [.string "="]
        (some (.columnRef [.string "tenant_id"])) (some (.paramRef 1))))).map
      (fun w => w.keys (some "users") "tenant_id") =
      some [Key.Parameter 0 true] := by
  simp [WhereClause.new, WhereClause.keys, WhereClause.parse, WhereClause.string,
    WhereClause.search_for_keys, singleton_column_single,
    WhereClause.column_match, WhereClause.get_key, usizeOfI32, USIZE]
